import Mathlib

/-!
Shallow embedding of `src/main.py` (a FastAPI image-processing service) and
proofs about its request pipeline: validation, fingerprinting, cache lookup,
transform, persist, cache write.

Machine integers are modelled as `Nat` with explicit `% 2^32` (resp. `% 2^64`)
where overflow matters.  Fallible code returns `Except String`.  Side effects
(temporary files, output files, transformer and store calls) are tracked
explicitly in returned traces.
-/

namespace FaceSwap

/-! ### SHA-256 (embedding of `hashlib.sha256(...).hexdigest()` used by `get_file_hash`) -/

/-- Wrap-around modulus for 32-bit words. -/
def MOD32 : Nat := 4294967296

/-- 32-bit addition with wrap-around. -/
def add32 (a b : Nat) : Nat := (a + b) % MOD32

/-- Bitwise complement on 32-bit words. -/
def not32 (a : Nat) : Nat := Nat.xor a (MOD32 - 1)

/-- Right rotation of a 32-bit word by `n` places (`0 ≤ n < 32`, input `< 2^32`). -/
def rotr32 (n a : Nat) : Nat := a / 2 ^ n + a % 2 ^ n * 2 ^ (32 - n)

/-- Logical right shift. -/
def shr32 (n a : Nat) : Nat := a / 2 ^ n

/-- SHA-256 small sigma 0. -/
def smallSigmaA (x : Nat) : Nat := Nat.xor (Nat.xor (rotr32 7 x) (rotr32 18 x)) (shr32 3 x)

/-- SHA-256 small sigma 1. -/
def smallSigmaB (x : Nat) : Nat := Nat.xor (Nat.xor (rotr32 17 x) (rotr32 19 x)) (shr32 10 x)

/-- SHA-256 big sigma 0. -/
def bigSigmaA (x : Nat) : Nat := Nat.xor (Nat.xor (rotr32 2 x) (rotr32 13 x)) (rotr32 22 x)

/-- SHA-256 big sigma 1. -/
def bigSigmaB (x : Nat) : Nat := Nat.xor (Nat.xor (rotr32 6 x) (rotr32 11 x)) (rotr32 25 x)

/-- SHA-256 choice function. -/
def chf (e f g : Nat) : Nat := Nat.xor (Nat.land e f) (Nat.land (not32 e) g)

/-- SHA-256 majority function. -/
def majf (a b c : Nat) : Nat := Nat.xor (Nat.xor (Nat.land a b) (Nat.land a c)) (Nat.land b c)

/-- The eight 32-bit working variables of the SHA-256 compression function. -/
structure Hash8 where
  a : Nat
  b : Nat
  c : Nat
  d : Nat
  e : Nat
  f : Nat
  g : Nat
  hh : Nat
deriving Repr, DecidableEq

/-- SHA-256 initial hash value (FIPS 180-4). -/
def sha256Init : Hash8 :=
  ⟨1779033703, 3144134277, 1013904242, 2773480762,
   1359893119, 2600822924, 528734635, 1541459225⟩

/-- SHA-256 round constants (FIPS 180-4). -/
def sha256K : List Nat :=
  [1116352408, 1899447441, 3049323471, 3921009573, 961987163, 1508970993,
   2453635748, 2870763221, 3624381080, 310598401, 607225278, 1426881987,
   1925078388, 2162078206, 2614888103, 3248222580, 3835390401, 4022224774,
   264347078, 604807628, 770255983, 1249150122, 1555081692, 1996064986,
   2554220882, 2821834349, 2952996808, 3210313671, 3336571891, 3584528711,
   113926993, 338241895, 666307205, 773529912, 1294757372, 1396182291,
   1695183700, 1986661051, 2177026350, 2456956037, 2730485921, 2820302411,
   3259730800, 3345764771, 3516065817, 3600352804, 4094571909, 275423344,
   430227734, 506948616, 659060556, 883997877, 958139571, 1322822218,
   1537002063, 1747873779, 1955562222, 2024104815, 2227730452, 2361852424,
   2428436474, 2756734187, 3204031479, 3329325298]

/-- Render `val` as `numBytes` big-endian bytes. -/
def toBytesBE (numBytes val : Nat) : List Nat :=
  (List.range numBytes).map (fun i => val / 2 ^ (8 * (numBytes - 1 - i)) % 256)

/-- SHA-256 padding: append `0x80`, zeros to 56 mod 64, then the 64-bit
big-endian bit length of the message. -/
def sha256Pad (msg : List Nat) : List Nat :=
  let L := msg.length
  let k := (64 - (L + 9) % 64) % 64
  msg ++ [0x80] ++ List.replicate k 0 ++ toBytesBE 8 (L * 8 % 2 ^ 64)

/-- Split a byte list into chunks of 64; `fuel` bounds the recursion depth
(structural recursion so the definition reduces in the kernel). -/
def chunks64Fuel : Nat → List Nat → List (List Nat)
  | 0, _ => []
  | _, [] => []
  | fuel + 1, x :: xs => (x :: xs).take 64 :: chunks64Fuel fuel ((x :: xs).drop 64)

/-- Split a byte list into 64-byte chunks. -/
def chunks64 (l : List Nat) : List (List Nat) := chunks64Fuel l.length l

/-- The sixteen initial 32-bit message-schedule words of a 64-byte chunk
(big-endian packing). -/
def chunkWords (chunk : List Nat) : List Nat :=
  (List.range 16).map (fun i =>
    chunk.getD (4 * i) 0 * 2 ^ 24 + chunk.getD (4 * i + 1) 0 * 2 ^ 16 +
    chunk.getD (4 * i + 2) 0 * 2 ^ 8 + chunk.getD (4 * i + 3) 0)

/-- One step of message-schedule extension: append
`smallSigmaB w[n-2] + w[n-7] + smallSigmaA w[n-15] + w[n-16]` (mod 2^32). -/
def schedExt (ws : List Nat) : List Nat :=
  let n := ws.length
  ws ++ [add32 (add32 (smallSigmaB (ws.getD (n - 2) 0)) (ws.getD (n - 7) 0))
               (add32 (smallSigmaA (ws.getD (n - 15) 0)) (ws.getD (n - 16) 0))]

/-- The full 64-word message schedule of a chunk. -/
def schedule (chunk : List Nat) : List Nat := Nat.repeat schedExt 48 (chunkWords chunk)

/-- One SHA-256 compression round, consuming a `(k, w)` pair. -/
def roundStep (st : Hash8) (kw : Nat × Nat) : Hash8 :=
  let t1 := add32 (add32 (add32 st.hh (bigSigmaB st.e)) (add32 (chf st.e st.f st.g) kw.1)) kw.2
  let t2 := add32 (bigSigmaA st.a) (majf st.a st.b st.c)
  ⟨add32 t1 t2, st.a, st.b, st.c, add32 st.d t1, st.e, st.f, st.g⟩

/-- Componentwise 32-bit addition of two hash states. -/
def addHash8 (x y : Hash8) : Hash8 :=
  ⟨add32 x.a y.a, add32 x.b y.b, add32 x.c y.c, add32 x.d y.d,
   add32 x.e y.e, add32 x.f y.f, add32 x.g y.g, add32 x.hh y.hh⟩

/-- Compress one 64-byte chunk into the running hash state. -/
def sha256Compress (st : Hash8) (chunk : List Nat) : Hash8 :=
  addHash8 st (((sha256K.zip (schedule chunk)).foldl roundStep st))

/-- SHA-256 of a byte sequence, as the eight final 32-bit words.  Input bytes
are reduced mod 256 (in Python the `bytes` type guarantees this). -/
def sha256Words (msg : List Nat) : Hash8 :=
  (chunks64 (sha256Pad (msg.map (· % 256)))).foldl sha256Compress sha256Init

/-- Lowercase hex digit for `n < 16` (as produced by Python `hexdigest`). -/
def hexDigit (n : Nat) : Char :=
  if n < 10 then Char.ofNat (48 + n) else Char.ofNat (87 + n)

/-- The eight lowercase hex characters of a 32-bit word, big-endian. -/
def toHex8 (w : Nat) : List Char :=
  [hexDigit (w / 2 ^ 28 % 16), hexDigit (w / 2 ^ 24 % 16),
   hexDigit (w / 2 ^ 20 % 16), hexDigit (w / 2 ^ 16 % 16),
   hexDigit (w / 2 ^ 12 % 16), hexDigit (w / 2 ^ 8 % 16),
   hexDigit (w / 2 ^ 4 % 16), hexDigit (w % 16)]

/-- The 64 hex characters of a hash state. -/
def hexOfHash8 (st : Hash8) : List Char :=
  toHex8 st.a ++ toHex8 st.b ++ toHex8 st.c ++ toHex8 st.d ++
  toHex8 st.e ++ toHex8 st.f ++ toHex8 st.g ++ toHex8 st.hh

/-- Embedding of `get_file_hash` (src/main.py lines 39-41):
`hashlib.sha256(file_content).hexdigest()`. -/
def get_file_hash (file_content : List Nat) : String :=
  String.mk (hexOfHash8 (sha256Words file_content))

/-! ### Validator (embedding of `allowed_file`, src/main.py lines 35-37) -/

/-- The extension allow-set `ALLOWED_EXTENSIONS = {'png', 'jpg', 'jpeg'}`
(src/main.py line 21), as lists of characters. -/
def ALLOWED_EXTENSIONS : List (List Char) := ["png".data, "jpg".data, "jpeg".data]

/-- The part of a character list after its final dot; this is Python
`filename.rsplit('.', 1)[1]` whenever the list contains a dot. -/
def afterLastDot (l : List Char) : List Char :=
  (l.reverse.takeWhile (fun c => c != '.')).reverse

/-- Lowercasing, Python `str.lower()` (the inputs compared here are ASCII). -/
def lowerStr (l : List Char) : List Char := l.map Char.toLower

/-- Embedding of `allowed_file` (src/main.py lines 35-37):
`'.' in filename and filename.rsplit('.', 1)[1].lower() in ALLOWED_EXTENSIONS`. -/
def allowed_file (filename : String) : Bool :=
  filename.data.contains '.' && ALLOWED_EXTENSIONS.contains (lowerStr (afterLastDot filename.data))

/-! ### Transformer (embedding of `process_image`, src/main.py lines 43-59)

The PIL decode (`Image.open(...).convert("L")`) and PNG encode (`img.save`)
capabilities are external collaborators, modelled as an oracle `PIL`.  The
decoded pixel grid is opaque data (`List Nat`).  `process_image` creates two
temporary files (ids `0` and `1`, the files behind the two
`tempfile.NamedTemporaryFile(delete=False)` calls); the trace records which
ids were created and which were passed to `os.unlink`. -/

/-- Oracle for the PIL decode/encode collaborator: `decode` is
`Image.open(path).convert("L")` reading the first temp file, `encode` is
`img.save(path, "PNG", optimize=True)` followed by reading the bytes back.
Failures (`.error`) model the exceptions PIL may raise. -/
structure PIL where
  decode : List Nat → Except String (List Nat)
  encode : List Nat → Except String (List Nat)

/-- Which temporary files were created and which were unlinked during one
`process_image` call. -/
structure ScratchTrace where
  created : List Nat
  deleted : List Nat
deriving Repr, DecidableEq

/-- Embedding of `process_image` (src/main.py lines 43-59).  Control flow of
the source: write `content` to temp file 0; decode it (failure propagates via
the bare `raise` in the `except` block, with no unlink); create temp file 1
and encode into it (failure again propagates with no unlink); read the bytes
back; unlink temp file 1 then temp file 0; return the bytes. -/
def process_image (pil : PIL) (content : List Nat) :
    Except String (List Nat) × ScratchTrace :=
  match pil.decode content with
  | .error e => (.error e, ⟨[0], []⟩)
  | .ok img =>
    match pil.encode img with
    | .error e => (.error e, ⟨[0, 1], []⟩)
    | .ok processed_content => (.ok processed_content, ⟨[0, 1], [1, 0]⟩)

/-! ### Store (embedding of `save_output_image`, src/main.py lines 61-72) -/

/-- Oracle for the filesystem: whether a write to a given path succeeds, and
the exception text when it does not. -/
structure FS where
  writeOk : String → Bool
  writeErr : String → String

/-- Embedding of `save_output_image` (src/main.py lines 61-72): ensure the
directory exists, write the bytes to `output_dir/output_name`, return the
path.  The second component lists the files this call left on disk (none when
the write raises; a raising write is modelled as leaving nothing behind). -/
def save_output_image (fs : FS) (_content : List Nat) (output_dir output_name : String) :
    Except String String × List String :=
  let output_path := output_dir ++ "/" ++ output_name
  if fs.writeOk output_path then (.ok output_path, [output_path])
  else (.error (fs.writeErr output_path), [])

/-! ### RequestHandler (embedding of `process_images`, src/main.py lines 86-131) -/

/-- `OUTPUT_FOLDER` default (src/main.py line 20). -/
def OUTPUT_FOLDER : String := "static/output"

/-- An uploaded file: FastAPI's `UploadFile.filename` is optional, and the
raw bytes returned by `await ...read()`. -/
structure UploadFile where
  filename : Option String
  content : List Nat

/-- Python truthiness of `not upload.filename`: `None` and `""` are falsy. -/
def falsyFilename : Option String → Bool
  | none => true
  | some s => s == ""

/-- The HTTP response of the handler: a 400 `JSONResponse`, a 500
`JSONResponse`, or the 200 success body
`{"source_result": ..., "dest_result": ...}`. -/
inductive Response where
  | badRequest (error : String)
  | serverError (error : String)
  | ok (source_result dest_result : String)
deriving Repr, DecidableEq

/-- HTTP status code of a response. -/
def Response.status : Response → Nat
  | .badRequest _ => 400
  | .serverError _ => 500
  | .ok _ _ => 200

/-- The in-memory result cache, keyed by the `cache_key` string; lookup takes
the most recent insertion for a key, matching dict-overwrite semantics of
`TTLCache.__setitem__`.  (TTL expiry and LRU eviction are not modelled; the
claims below concern presence, absence and writes.) -/
abbrev Cache := List (String × String × String)

/-- `cache[cache_key]` lookup. -/
def cacheGet (c : Cache) (k : String) : Option (String × String) :=
  match c with
  | [] => none
  | (k0, v) :: rest => if k0 == k then some v else cacheGet rest k

/-- The cache key of src/main.py line 102:
`f"{get_file_hash(source_content)}:{get_file_hash(dest_content)}"`. -/
def cache_key (source_content dest_content : List Nat) : String :=
  get_file_hash source_content ++ ":" ++ get_file_hash dest_content

/-- Per-request environment: the PIL and filesystem oracles and the two
`uuid.uuid4().hex` values drawn at lines 119-120. -/
structure Env where
  pil : PIL
  fs : FS
  sourceUuid : String
  destUuid : String

/-- Observable side effects of one handler run: how many `process_image`
calls, how many `save_output_image` calls, and which output files were
written. -/
structure Effects where
  transformCalls : Nat
  storeCalls : Nat
  filesWritten : List String
deriving Repr, DecidableEq

/-- No downstream work. -/
def Effects.none : Effects := ⟨0, 0, []⟩

/-- Embedding of the `POST /process` handler `process_images`
(src/main.py lines 86-131).  Returns the response, the cache after the
request, and the observable effects.  The branch structure follows the
source line by line: filename truthiness check (line 91), extension check
(line 94), cache lookup (line 105), the two transforms (lines 112-113) under
one `try`, the two stores (lines 121-122) under a second `try`, the cache
write (line 127), and the success response (line 131). -/
def process_images (env : Env) (c : Cache) (source_image dest_image : UploadFile) :
    Response × Cache × Effects :=
  if falsyFilename source_image.filename || falsyFilename dest_image.filename then
    (.badRequest "No file selected", c, Effects.none)
  else if !(allowed_file (source_image.filename.getD "") && allowed_file (dest_image.filename.getD "")) then
    (.badRequest "Invalid file format. Only PNG, JPG, JPEG allowed", c, Effects.none)
  else
    let source_content := source_image.content
    let dest_content := dest_image.content
    let key := cache_key source_content dest_content
    match cacheGet c key with
    | some result_urls => (.ok result_urls.1 result_urls.2, c, Effects.none)
    | none =>
      match (process_image env.pil source_content).1 with
      | .error e => (.serverError e, c, ⟨1, 0, []⟩)
      | .ok source_processed =>
        match (process_image env.pil dest_content).1 with
        | .error e => (.serverError e, c, ⟨2, 0, []⟩)
        | .ok dest_processed =>
          let source_filename := "source_" ++ env.sourceUuid ++ ".png"
          let dest_filename := "dest_" ++ env.destUuid ++ ".png"
          match save_output_image env.fs source_processed OUTPUT_FOLDER source_filename with
          | (.error e, w1) => (.serverError e, c, ⟨2, 1, w1⟩)
          | (.ok source_path, w1) =>
            match save_output_image env.fs dest_processed OUTPUT_FOLDER dest_filename with
            | (.error e, w2) => (.serverError e, c, ⟨2, 2, w1 ++ w2⟩)
            | (.ok dest_path, w2) =>
              (.ok ("/" ++ source_path) ("/" ++ dest_path),
               (key, "/" ++ source_path, "/" ++ dest_path) :: c,
               ⟨2, 2, w1 ++ w2⟩)

/-! ### Lemmas about `afterLastDot` -/

/-- The suffix after the final dot contains no dot. -/
lemma afterLastDot_not_mem (l : List Char) : '.' ∉ afterLastDot l := by
  intro hmem
  unfold afterLastDot at hmem
  rw [List.mem_reverse] at hmem
  have hp := List.mem_takeWhile_imp hmem
  simp at hp

/-- A list containing a dot splits as `pre ++ '.' :: afterLastDot l`. -/
lemma afterLastDot_decomp (l : List Char) (hd : '.' ∈ l) :
    ∃ pre, l = pre ++ '.' :: afterLastDot l := by
  have hsplit := List.takeWhile_append_dropWhile (fun c => c != '.') l.reverse
  have hne : l.reverse.dropWhile (fun c => c != '.') ≠ [] := by
    intro hnil
    rw [hnil, List.append_nil] at hsplit
    have hdm : '.' ∈ l.reverse.takeWhile (fun c => c != '.') := by
      rw [hsplit, List.mem_reverse]
      exact hd
    have hp := List.mem_takeWhile_imp hdm
    simp at hp
  obtain ⟨b, t, hbt⟩ := List.exists_cons_of_ne_nil hne
  have hm := List.head?_dropWhile_not (fun c => c != '.') l.reverse
  rw [hbt] at hm
  simp only [List.head?_cons] at hm
  have hb : b = '.' := by simpa using hm
  subst hb
  have h2 : (l.reverse.dropWhile (fun c => c != '.')).reverse ++
      (l.reverse.takeWhile (fun c => c != '.')).reverse = l := by
    rw [← List.reverse_append, hsplit, List.reverse_reverse]
  rw [hbt, List.reverse_cons, List.append_assoc, List.singleton_append] at h2
  exact ⟨t.reverse, h2.symm⟩

/-- Uniqueness: if `l = pre ++ '.' :: ext` with no dot in `ext`, then
`afterLastDot l = ext`. -/
lemma afterLastDot_append (pre ext : List Char) (hnm : '.' ∉ ext) :
    afterLastDot (pre ++ '.' :: ext) = ext := by
  unfold afterLastDot
  rw [List.reverse_append, List.reverse_cons, List.append_assoc, List.singleton_append]
  have hpos : ∀ a ∈ ext.reverse, (a != '.') = true := by
    intro a ha
    rw [List.mem_reverse] at ha
    simp only [bne_iff_ne, ne_eq]
    intro hEq
    exact hnm (hEq ▸ ha)
  rw [List.takeWhile_append_of_pos hpos, List.takeWhile_cons_of_neg (by simp),
    List.append_nil, List.reverse_reverse]

end FaceSwap

namespace FaceSwap

/-- C3: the Validator `allowed_file` accepts a filename iff it contains a dot
and the lowercased suffix after the final dot is one of png, jpg, jpeg; the
five example filenames of the spec evaluate as stated.  (As a Lean function
the embedding is pure, so it has no side effects.) -/
theorem allowed_file_correct :
    (∀ s : String, allowed_file s = true ↔
      ∃ pre ext : List Char, s.data = pre ++ '.' :: ext ∧ '.' ∉ ext ∧
        (lowerStr ext = "png".data ∨ lowerStr ext = "jpg".data ∨ lowerStr ext = "jpeg".data)) ∧
    allowed_file "a.png" = true ∧ allowed_file "a.PNG" = true ∧
    allowed_file "a.txt" = false ∧ allowed_file "noext" = false ∧
    allowed_file "" = false := by
  refine ⟨?_, by decide, by decide, by decide, by decide, by decide⟩
  intro s
  constructor
  · intro h
    unfold allowed_file at h
    rw [Bool.and_eq_true] at h
    obtain ⟨h1, h2⟩ := h
    have hd : '.' ∈ s.data := by simpa using h1
    obtain ⟨pre, hdec⟩ := afterLastDot_decomp s.data hd
    refine ⟨pre, afterLastDot s.data, hdec, afterLastDot_not_mem s.data, ?_⟩
    simpa [ALLOWED_EXTENSIONS] using h2
  · rintro ⟨pre, ext, hdec, hnm, hmem⟩
    unfold allowed_file
    rw [Bool.and_eq_true]
    constructor
    · rw [hdec]
      simp
    · rw [hdec, afterLastDot_append pre ext hnm]
      simpa [ALLOWED_EXTENSIONS] using hmem

/-- Witness for `allowed_file_correct`: instantiating its characterization at
the concrete filename "a.png". -/
theorem allowed_file_correct_witness :
    ∃ pre ext : List Char, "a.png".data = pre ++ '.' :: ext ∧ '.' ∉ ext ∧
      (lowerStr ext = "png".data ∨ lowerStr ext = "jpg".data ∨ lowerStr ext = "jpeg".data) :=
  (allowed_file_correct.1 "a.png").mp (by decide)

/-- C10: the Validator accepts filenames that are a bare allowed extension
with an empty stem, since only the presence of a dot and the suffix after the
final dot are checked. -/
theorem allowed_file_empty_stem :
    allowed_file ".png" = true ∧ allowed_file ".jpg" = true ∧
    allowed_file ".jpeg" = true := by
  decide

end FaceSwap

namespace FaceSwap

/-! ### Lemmas about the hex digest -/

/-- Every digit produced by `hexDigit` on a residue mod 16 is a lowercase hex
character. -/
lemma hexDigit_mem (n : Nat) : hexDigit (n % 16) ∈ "0123456789abcdef".data := by
  have hlt : n % 16 < 16 := Nat.mod_lt _ (by norm_num)
  have hall : ∀ m, m < 16 → hexDigit m ∈ "0123456789abcdef".data := by decide
  exact hall _ hlt

/-- Every character of a word's hex rendering is a lowercase hex character. -/
lemma toHex8_mem (w : Nat) : ∀ ch ∈ toHex8 w, ch ∈ "0123456789abcdef".data := by
  intro ch hch
  simp only [toHex8, List.mem_cons, List.not_mem_nil, or_false] at hch
  rcases hch with h | h | h | h | h | h | h | h <;> rw [h] <;> exact hexDigit_mem _

/-- The hex rendering of a hash state has exactly 64 characters. -/
lemma hexOfHash8_length (st : Hash8) : (hexOfHash8 st).length = 64 := rfl

/-- The digest string always has exactly 64 characters (as a list). -/
lemma get_file_hash_data_length (b : List Nat) : (get_file_hash b).data.length = 64 := rfl

end FaceSwap

namespace FaceSwap

set_option maxRecDepth 1000000 in
/-- C8: the Fingerprinter `get_file_hash` is a pure total function on byte
sequences: it is deterministic (identical bytes give identical digests), its
output always has exactly 64 characters, every output character is a
lowercase hex digit, and on the empty byte sequence it returns the standard
SHA-256 digest of the empty message. -/
theorem get_file_hash_contract :
    (∀ b1 b2 : List Nat, b1 = b2 → get_file_hash b1 = get_file_hash b2) ∧
    (∀ b : List Nat, (get_file_hash b).length = 64) ∧
    (∀ b : List Nat, ∀ ch ∈ (get_file_hash b).data, ch ∈ "0123456789abcdef".data) ∧
    get_file_hash [] = "e3b0c44298fc1c149afbf4c8996fb92427ae41e4649b934ca495991b7852b855" := by
  refine ⟨fun b1 b2 h => by rw [h], fun b => rfl, fun b ch hch => ?_, by rfl⟩
  have hdata : (get_file_hash b).data = hexOfHash8 (sha256Words b) := rfl
  rw [hdata] at hch
  simp only [hexOfHash8, List.mem_append] at hch
  rcases hch with ((((((h | h) | h) | h) | h) | h) | h) | h <;> exact toHex8_mem _ ch h

/-- Witness for `get_file_hash_contract`: its determinism conjunct applied at
a concrete byte sequence. -/
theorem get_file_hash_contract_witness :
    get_file_hash [255] = get_file_hash [255] :=
  get_file_hash_contract.1 [255] [255] rfl

end FaceSwap

namespace FaceSwap

/-- C4: the cache key is built from the source fingerprint first and the
destination fingerprint second, and requests with byte-identical source and
destination contents (in that role order) always get equal cache keys. -/
theorem cache_key_deterministic :
    (∀ source_content dest_content : List Nat,
      cache_key source_content dest_content =
        get_file_hash source_content ++ ":" ++ get_file_hash dest_content) ∧
    (∀ s1 d1 s2 d2 : List Nat, s1 = s2 → d1 = d2 → cache_key s1 d1 = cache_key s2 d2) := by
  refine ⟨fun _ _ => rfl, ?_⟩
  intro s1 d1 s2 d2 hs hd
  rw [hs, hd]

/-- Witness for `cache_key_deterministic`: its determinism conjunct at
concrete contents. -/
theorem cache_key_deterministic_witness :
    cache_key [1, 2] [3] = cache_key [1, 2] [3] :=
  cache_key_deterministic.2 [1, 2] [3] [1, 2] [3] rfl rfl

/-- C5: the cache key is not commutative in its two roles: whenever the two
contents have distinct fingerprints, swapping the source and destination
roles yields a different cache key. -/
theorem cache_key_role_order_matters :
    ∀ a b : List Nat, get_file_hash a ≠ get_file_hash b →
      cache_key a b ≠ cache_key b a := by
  intro a b hne hEq
  apply hne
  have hdata : (cache_key a b).data = (cache_key b a).data := by rw [hEq]
  unfold cache_key at hdata
  simp only [String.data_append, List.append_assoc] at hdata
  have hlen : (get_file_hash a).data.length = (get_file_hash b).data.length := by
    rw [get_file_hash_data_length, get_file_hash_data_length]
  have hinj := List.append_inj hdata hlen
  exact String.ext hinj.1

end FaceSwap

set_option maxRecDepth 1000000 in
/-- Witness for `cache_key_role_order_matters`: the empty byte sequence and
the single zero byte have distinct SHA-256 digests, so their two role orders
produce distinct cache keys. -/
theorem FaceSwap.cache_key_role_order_matters_witness :
    FaceSwap.cache_key [] [0] ≠ FaceSwap.cache_key [0] [] :=
  FaceSwap.cache_key_role_order_matters [] [0] (by decide)

namespace FaceSwap

/-- A PIL oracle whose decode step always raises, as on corrupt input bytes. -/
def pilDecodeFail : PIL := ⟨fun _ => .error "cannot identify image file", fun b => .ok b⟩

/-- A PIL oracle for which decode and encode both succeed (the pixel grid and
re-encoded bytes are passed through unchanged). -/
def pilOK : PIL := ⟨fun b => .ok b, fun b => .ok b⟩

/-- C6 counterexample: when decoding fails, `process_image` has created
temporary file 0 but deletes nothing, so its scratch storage is not cleaned
up on this failure path: the claim that every temporary file is removed on
every exit path is false. -/
theorem process_image_leak_counterexample :
    (process_image pilDecodeFail [0]).2 = ⟨[0], []⟩ ∧
    ¬ (∀ t ∈ (process_image pilDecodeFail [0]).2.created,
        t ∈ (process_image pilDecodeFail [0]).2.deleted) := by
  decide

/-- C6 (amended): `process_image` removes both temporary files on the success
path, but on a decode or encode failure it deletes nothing even though it has
created at least one temporary file (the `except` block of src/main.py lines
57-59 only logs and re-raises, with no `os.unlink`). -/
theorem process_image_cleanup_success_only :
    ∀ (pil : PIL) (content : List Nat),
      (∀ b : List Nat, (process_image pil content).1 = .ok b →
        (process_image pil content).2.created = [0, 1] ∧
        (process_image pil content).2.deleted = [1, 0] ∧
        (∀ t ∈ (process_image pil content).2.created,
          t ∈ (process_image pil content).2.deleted)) ∧
      (∀ e : String, (process_image pil content).1 = .error e →
        (process_image pil content).2.deleted = [] ∧
        (process_image pil content).2.created ≠ []) := by
  intro pil content
  rcases hdec : pil.decode content with e1 | img
  · refine ⟨fun b hb => ?_, fun e2 h2 => ?_⟩
    · simp [process_image, hdec] at hb
    · simp [process_image, hdec]
  · rcases henc : pil.encode img with e1 | pc
    · refine ⟨fun b hb => ?_, fun e2 h2 => ?_⟩
      · simp [process_image, hdec, henc] at hb
      · simp [process_image, hdec, henc]
    · refine ⟨fun b hb => ?_, fun e2 h2 => ?_⟩
      · refine ⟨?_, ?_, ?_⟩ <;> simp [process_image, hdec, henc]
      · simp [process_image, hdec, henc] at h2

/-- Witness for `process_image_cleanup_success_only`: on a successful run the
trace shows both temp files created and both deleted. -/
theorem process_image_cleanup_witness :
    (process_image pilOK [7]).2.created = [0, 1] ∧
    (process_image pilOK [7]).2.deleted = [1, 0] ∧
    (∀ t ∈ (process_image pilOK [7]).2.created, t ∈ (process_image pilOK [7]).2.deleted) :=
  (process_image_cleanup_success_only pilOK [7]).1 [7] rfl

end FaceSwap

namespace FaceSwap

/-! ### Run characterization of `process_images`, one lemma per branch -/

/-- Missing filename branch (src/main.py lines 91-92). -/
lemma run_invalid_filename (env : Env) (c : Cache) (s d : UploadFile)
    (h1 : (falsyFilename s.filename || falsyFilename d.filename) = true) :
    process_images env c s d = (.badRequest "No file selected", c, Effects.none) := by
  simp [process_images, h1]

/-- Disallowed extension branch (src/main.py lines 94-95). -/
lemma run_invalid_ext (env : Env) (c : Cache) (s d : UploadFile)
    (h1 : (falsyFilename s.filename || falsyFilename d.filename) = false)
    (h2 : (allowed_file (s.filename.getD "") && allowed_file (d.filename.getD "")) = false) :
    process_images env c s d =
      (.badRequest "Invalid file format. Only PNG, JPG, JPEG allowed", c, Effects.none) := by
  simp [process_images, h1, h2]

/-- Cache-hit branch (src/main.py lines 105-108). -/
lemma run_hit (env : Env) (c : Cache) (s d : UploadFile) (u1 u2 : String)
    (h1 : (falsyFilename s.filename || falsyFilename d.filename) = false)
    (h2 : (allowed_file (s.filename.getD "") && allowed_file (d.filename.getD "")) = true)
    (h3 : cacheGet c (cache_key s.content d.content) = some (u1, u2)) :
    process_images env c s d = (.ok u1 u2, c, Effects.none) := by
  simp [process_images, h1, h2, h3]

/-- Source transform failure branch (src/main.py lines 111-115). -/
lemma run_transform_fail_src (env : Env) (c : Cache) (s d : UploadFile) (e : String)
    (h1 : (falsyFilename s.filename || falsyFilename d.filename) = false)
    (h2 : (allowed_file (s.filename.getD "") && allowed_file (d.filename.getD "")) = true)
    (h3 : cacheGet c (cache_key s.content d.content) = none)
    (h4 : (process_image env.pil s.content).1 = .error e) :
    process_images env c s d = (.serverError e, c, ⟨1, 0, []⟩) := by
  simp [process_images, h1, h2, h3, h4]

/-- Destination transform failure branch (src/main.py lines 111-115). -/
lemma run_transform_fail_dst (env : Env) (c : Cache) (s d : UploadFile) (sp : List Nat) (e : String)
    (h1 : (falsyFilename s.filename || falsyFilename d.filename) = false)
    (h2 : (allowed_file (s.filename.getD "") && allowed_file (d.filename.getD "")) = true)
    (h3 : cacheGet c (cache_key s.content d.content) = none)
    (h4 : (process_image env.pil s.content).1 = .ok sp)
    (h5 : (process_image env.pil d.content).1 = .error e) :
    process_images env c s d = (.serverError e, c, ⟨2, 0, []⟩) := by
  simp [process_images, h1, h2, h3, h4, h5]

/-- Source store failure branch (src/main.py lines 118-124). -/
lemma run_store_fail_src (env : Env) (c : Cache) (s d : UploadFile) (sp dp : List Nat)
    (h1 : (falsyFilename s.filename || falsyFilename d.filename) = false)
    (h2 : (allowed_file (s.filename.getD "") && allowed_file (d.filename.getD "")) = true)
    (h3 : cacheGet c (cache_key s.content d.content) = none)
    (h4 : (process_image env.pil s.content).1 = .ok sp)
    (h5 : (process_image env.pil d.content).1 = .ok dp)
    (h6 : env.fs.writeOk (OUTPUT_FOLDER ++ "/" ++ ("source_" ++ env.sourceUuid ++ ".png")) = false) :
    process_images env c s d =
      (.serverError (env.fs.writeErr (OUTPUT_FOLDER ++ "/" ++ ("source_" ++ env.sourceUuid ++ ".png"))),
       c, ⟨2, 1, []⟩) := by
  simp [process_images, save_output_image, h1, h2, h3, h4, h5, h6]

/-- Destination store failure branch (src/main.py lines 118-124): note the
source output file has already been written at this point. -/
lemma run_store_fail_dst (env : Env) (c : Cache) (s d : UploadFile) (sp dp : List Nat)
    (h1 : (falsyFilename s.filename || falsyFilename d.filename) = false)
    (h2 : (allowed_file (s.filename.getD "") && allowed_file (d.filename.getD "")) = true)
    (h3 : cacheGet c (cache_key s.content d.content) = none)
    (h4 : (process_image env.pil s.content).1 = .ok sp)
    (h5 : (process_image env.pil d.content).1 = .ok dp)
    (h6 : env.fs.writeOk (OUTPUT_FOLDER ++ "/" ++ ("source_" ++ env.sourceUuid ++ ".png")) = true)
    (h7 : env.fs.writeOk (OUTPUT_FOLDER ++ "/" ++ ("dest_" ++ env.destUuid ++ ".png")) = false) :
    process_images env c s d =
      (.serverError (env.fs.writeErr (OUTPUT_FOLDER ++ "/" ++ ("dest_" ++ env.destUuid ++ ".png"))),
       c, ⟨2, 2, [OUTPUT_FOLDER ++ "/" ++ ("source_" ++ env.sourceUuid ++ ".png")]⟩) := by
  simp [process_images, save_output_image, h1, h2, h3, h4, h5, h6, h7]

/-- Full success branch (src/main.py lines 118-131): both stores succeed, the
cache is written, and the response carries the two new locations. -/
lemma run_full_success (env : Env) (c : Cache) (s d : UploadFile) (sp dp : List Nat)
    (h1 : (falsyFilename s.filename || falsyFilename d.filename) = false)
    (h2 : (allowed_file (s.filename.getD "") && allowed_file (d.filename.getD "")) = true)
    (h3 : cacheGet c (cache_key s.content d.content) = none)
    (h4 : (process_image env.pil s.content).1 = .ok sp)
    (h5 : (process_image env.pil d.content).1 = .ok dp)
    (h6 : env.fs.writeOk (OUTPUT_FOLDER ++ "/" ++ ("source_" ++ env.sourceUuid ++ ".png")) = true)
    (h7 : env.fs.writeOk (OUTPUT_FOLDER ++ "/" ++ ("dest_" ++ env.destUuid ++ ".png")) = true) :
    process_images env c s d =
      (.ok ("/" ++ (OUTPUT_FOLDER ++ "/" ++ ("source_" ++ env.sourceUuid ++ ".png")))
           ("/" ++ (OUTPUT_FOLDER ++ "/" ++ ("dest_" ++ env.destUuid ++ ".png"))),
       (cache_key s.content d.content,
        "/" ++ (OUTPUT_FOLDER ++ "/" ++ ("source_" ++ env.sourceUuid ++ ".png")),
        "/" ++ (OUTPUT_FOLDER ++ "/" ++ ("dest_" ++ env.destUuid ++ ".png"))) :: c,
       ⟨2, 2, [OUTPUT_FOLDER ++ "/" ++ ("source_" ++ env.sourceUuid ++ ".png"),
               OUTPUT_FOLDER ++ "/" ++ ("dest_" ++ env.destUuid ++ ".png")]⟩) := by
  simp [process_images, save_output_image, h1, h2, h3, h4, h5, h6, h7]

end FaceSwap

namespace FaceSwap

/-- Inversion: a run that returned a 200 success response passed validation,
and the cache it left behind maps the request's cache key to exactly the
response's pair of locations. -/
lemma run_ok_inv (env : Env) (c : Cache) (s d : UploadFile) (r1 r2 : String)
    (c1 : Cache) (eff : Effects)
    (h : process_images env c s d = (.ok r1 r2, c1, eff)) :
    (falsyFilename s.filename || falsyFilename d.filename) = false ∧
    (allowed_file (s.filename.getD "") && allowed_file (d.filename.getD "")) = true ∧
    cacheGet c1 (cache_key s.content d.content) = some (r1, r2) := by
  by_cases h1 : (falsyFilename s.filename || falsyFilename d.filename) = true
  · rw [run_invalid_filename env c s d h1] at h
    simp at h
  · rw [Bool.not_eq_true] at h1
    by_cases h2 : (allowed_file (s.filename.getD "") && allowed_file (d.filename.getD "")) = true
    · rcases h3 : cacheGet c (cache_key s.content d.content) with - | ⟨u1, u2⟩
      · rcases h4 : (process_image env.pil s.content).1 with e | sp
        · rw [run_transform_fail_src env c s d e h1 h2 h3 h4] at h
          simp at h
        · rcases h5 : (process_image env.pil d.content).1 with e | dp
          · rw [run_transform_fail_dst env c s d sp e h1 h2 h3 h4 h5] at h
            simp at h
          · by_cases h6 : env.fs.writeOk (OUTPUT_FOLDER ++ "/" ++ ("source_" ++ env.sourceUuid ++ ".png")) = true
            · by_cases h7 : env.fs.writeOk (OUTPUT_FOLDER ++ "/" ++ ("dest_" ++ env.destUuid ++ ".png")) = true
              · rw [run_full_success env c s d sp dp h1 h2 h3 h4 h5 h6 h7] at h
                simp only [Prod.mk.injEq, Response.ok.injEq] at h
                obtain ⟨⟨hr1, hr2⟩, hc1, -⟩ := h
                refine ⟨h1, h2, ?_⟩
                rw [← hc1, ← hr1, ← hr2]
                simp [cacheGet]
              · rw [Bool.not_eq_true] at h7
                rw [run_store_fail_dst env c s d sp dp h1 h2 h3 h4 h5 h6 h7] at h
                simp at h
            · rw [Bool.not_eq_true] at h6
              rw [run_store_fail_src env c s d sp dp h1 h2 h3 h4 h5 h6] at h
              simp at h
      · rw [run_hit env c s d u1 u2 h1 h2 h3] at h
        simp only [Prod.mk.injEq, Response.ok.injEq] at h
        obtain ⟨⟨hr1, hr2⟩, hc1, -⟩ := h
        refine ⟨h1, h2, ?_⟩
        rw [← hc1, ← hr1, ← hr2]
        exact h3
    · rw [Bool.not_eq_true] at h2
      rw [run_invalid_ext env c s d h1 h2] at h
      simp at h

end FaceSwap

namespace FaceSwap

/-- C1: the cache is written only after full success.  Every run either
leaves the cache exactly as it was (all invalid-input, cache-hit, transform
failure and store failure paths), or both transforms and both stores
succeeded, the response is the 200 success response, and the only cache
change is the insertion of the request's key mapped to the response's
locations. -/
theorem cache_write_only_after_full_success :
    ∀ (env : Env) (c : Cache) (s d : UploadFile),
      (process_images env c s d).2.1 = c ∨
      (∃ sp dp : List Nat, ∃ spath dpath : String,
        (process_image env.pil s.content).1 = .ok sp ∧
        (process_image env.pil d.content).1 = .ok dp ∧
        save_output_image env.fs sp OUTPUT_FOLDER ("source_" ++ env.sourceUuid ++ ".png") =
          (.ok spath, [spath]) ∧
        save_output_image env.fs dp OUTPUT_FOLDER ("dest_" ++ env.destUuid ++ ".png") =
          (.ok dpath, [dpath]) ∧
        (process_images env c s d).1 = .ok ("/" ++ spath) ("/" ++ dpath) ∧
        (process_images env c s d).2.1 =
          (cache_key s.content d.content, "/" ++ spath, "/" ++ dpath) :: c) := by
  intro env c s d
  by_cases h1 : (falsyFilename s.filename || falsyFilename d.filename) = true
  · left
    rw [run_invalid_filename env c s d h1]
  · rw [Bool.not_eq_true] at h1
    by_cases h2 : (allowed_file (s.filename.getD "") && allowed_file (d.filename.getD "")) = true
    · rcases h3 : cacheGet c (cache_key s.content d.content) with - | ⟨u1, u2⟩
      · rcases h4 : (process_image env.pil s.content).1 with e | sp
        · left
          rw [run_transform_fail_src env c s d e h1 h2 h3 h4]
        · rcases h5 : (process_image env.pil d.content).1 with e | dp
          · left
            rw [run_transform_fail_dst env c s d sp e h1 h2 h3 h4 h5]
          · by_cases h6 : env.fs.writeOk (OUTPUT_FOLDER ++ "/" ++ ("source_" ++ env.sourceUuid ++ ".png")) = true
            · by_cases h7 : env.fs.writeOk (OUTPUT_FOLDER ++ "/" ++ ("dest_" ++ env.destUuid ++ ".png")) = true
              · right
                refine ⟨sp, dp,
                  OUTPUT_FOLDER ++ "/" ++ ("source_" ++ env.sourceUuid ++ ".png"),
                  OUTPUT_FOLDER ++ "/" ++ ("dest_" ++ env.destUuid ++ ".png"),
                  rfl, rfl, ?_, ?_, ?_, ?_⟩
                · simp [save_output_image, h6]
                · simp [save_output_image, h7]
                · rw [run_full_success env c s d sp dp h1 h2 h3 h4 h5 h6 h7]
                · rw [run_full_success env c s d sp dp h1 h2 h3 h4 h5 h6 h7]
              · left
                rw [Bool.not_eq_true] at h7
                rw [run_store_fail_dst env c s d sp dp h1 h2 h3 h4 h5 h6 h7]
            · left
              rw [Bool.not_eq_true] at h6
              rw [run_store_fail_src env c s d sp dp h1 h2 h3 h4 h5 h6]
      · left
        rw [run_hit env c s d u1 u2 h1 h2 h3]
    · left
      rw [Bool.not_eq_true] at h2
      rw [run_invalid_ext env c s d h1 h2]

/-- C2: on a cache hit the handler returns the cached pair unchanged and does
no downstream work (no transform call, no store call, no file written, no
cache write); and after any successful submission, resubmitting the same
contents yields the same two locations with no downstream work at all. -/
theorem cache_hit_skips_downstream_work :
    (∀ (env : Env) (c : Cache) (s d : UploadFile) (u1 u2 : String),
      (falsyFilename s.filename || falsyFilename d.filename) = false →
      (allowed_file (s.filename.getD "") && allowed_file (d.filename.getD "")) = true →
      cacheGet c (cache_key s.content d.content) = some (u1, u2) →
      process_images env c s d = (.ok u1 u2, c, Effects.none)) ∧
    (∀ (env1 env2 : Env) (c0 : Cache) (s d : UploadFile) (r1 r2 : String)
        (c1 : Cache) (eff : Effects),
      process_images env1 c0 s d = (.ok r1 r2, c1, eff) →
      process_images env2 c1 s d = (.ok r1 r2, c1, Effects.none)) := by
  constructor
  · intro env c s d u1 u2 h1 h2 h3
    exact run_hit env c s d u1 u2 h1 h2 h3
  · intro env1 env2 c0 s d r1 r2 c1 eff h
    obtain ⟨h1, h2, h3⟩ := run_ok_inv env1 c0 s d r1 r2 c1 eff h
    exact run_hit env2 c1 s d r1 r2 h1 h2 h3

end FaceSwap

namespace FaceSwap

/-- C9: validation failures produce the exact 400 responses of the source:
a falsy (missing or empty) filename on either upload gives
`{"error": "No file selected"}`, and present filenames of which either fails
the extension rule give
`{"error": "Invalid file format. Only PNG, JPG, JPEG allowed"}`. -/
theorem validation_error_responses :
    (∀ (env : Env) (c : Cache) (s d : UploadFile),
      (falsyFilename s.filename || falsyFilename d.filename) = true →
      process_images env c s d = (.badRequest "No file selected", c, Effects.none) ∧
      (process_images env c s d).1.status = 400) ∧
    (∀ (env : Env) (c : Cache) (s d : UploadFile),
      (falsyFilename s.filename || falsyFilename d.filename) = false →
      (allowed_file (s.filename.getD "") && allowed_file (d.filename.getD "")) = false →
      process_images env c s d =
        (.badRequest "Invalid file format. Only PNG, JPG, JPEG allowed", c, Effects.none) ∧
      (process_images env c s d).1.status = 400) := by
  constructor
  · intro env c s d h1
    have he := run_invalid_filename env c s d h1
    rw [he]
    exact ⟨rfl, rfl⟩
  · intro env c s d h1 h2
    have he := run_invalid_ext env c s d h1 h2
    rw [he]
    exact ⟨rfl, rfl⟩

/-- C7 (amended): whenever the request reaches the store stage and either
store call fails, the handler answers with a 500-class error and the cache is
left unchanged.  (The stronger reading — that nothing already persisted
remains addressable — is refuted by `store_failure_leaves_source_file`.) -/
theorem store_failure_no_cache_write :
    ∀ (env : Env) (c : Cache) (s d : UploadFile) (sp dp : List Nat),
      (falsyFilename s.filename || falsyFilename d.filename) = false →
      (allowed_file (s.filename.getD "") && allowed_file (d.filename.getD "")) = true →
      cacheGet c (cache_key s.content d.content) = none →
      (process_image env.pil s.content).1 = .ok sp →
      (process_image env.pil d.content).1 = .ok dp →
      (env.fs.writeOk (OUTPUT_FOLDER ++ "/" ++ ("source_" ++ env.sourceUuid ++ ".png")) &&
       env.fs.writeOk (OUTPUT_FOLDER ++ "/" ++ ("dest_" ++ env.destUuid ++ ".png"))) = false →
      (process_images env c s d).1.status = 500 ∧
      (process_images env c s d).2.1 = c := by
  intro env c s d sp dp h1 h2 h3 h4 h5 hw
  by_cases h6 : env.fs.writeOk (OUTPUT_FOLDER ++ "/" ++ ("source_" ++ env.sourceUuid ++ ".png")) = true
  · have h7 : env.fs.writeOk (OUTPUT_FOLDER ++ "/" ++ ("dest_" ++ env.destUuid ++ ".png")) = false := by
      rcases hb : env.fs.writeOk (OUTPUT_FOLDER ++ "/" ++ ("dest_" ++ env.destUuid ++ ".png")) with - | -
      · rfl
      · rw [h6, hb] at hw
        simp at hw
    rw [run_store_fail_dst env c s d sp dp h1 h2 h3 h4 h5 h6 h7]
    exact ⟨rfl, rfl⟩
  · rw [Bool.not_eq_true] at h6
    rw [run_store_fail_src env c s d sp dp h1 h2 h3 h4 h5 h6]
    exact ⟨rfl, rfl⟩

end FaceSwap

namespace FaceSwap

/-! ### Concrete instances used by the witnesses and counterexamples -/

/-- A filesystem oracle on which every write fails with a disk-full error. -/
def fsFail : FS := ⟨fun _ => false, fun _ => "disk full"⟩

/-- A filesystem oracle on which exactly the source file of `envStoreFail`
can be written; the later destination write fails. -/
def fsSrcOnly : FS := ⟨fun p => p == "static/output/source_cafe.png", fun _ => "disk full"⟩

/-- Environment for the cache-hit witness: every transform and store would
fail, demonstrating that on a hit they are never consulted. -/
def envHit : Env := ⟨pilDecodeFail, fsFail, "u1", "u2"⟩

/-- Environment in which transforms succeed, the source store succeeds and
the destination store fails. -/
def envStoreFail : Env := ⟨pilOK, fsSrcOnly, "cafe", "beef"⟩

/-- A valid source upload with a png filename. -/
def srcUpload : UploadFile := ⟨some "a.png", []⟩

/-- A valid destination upload with a jpg filename. -/
def dstUpload : UploadFile := ⟨some "b.jpg", [0]⟩

/-- A cache holding a result pair for the contents of `srcUpload` and
`dstUpload`. -/
def cacheW : Cache :=
  [(cache_key [] [0], "/static/output/source_x.png", "/static/output/dest_x.png")]

end FaceSwap

set_option maxRecDepth 1000000 in
/-- Witness for `cache_hit_skips_downstream_work`: a concrete request whose
key is cached returns the cached pair with no effects, although every
transform and store in its environment would fail. -/
theorem FaceSwap.cache_hit_skips_downstream_work_witness :
    FaceSwap.process_images FaceSwap.envHit FaceSwap.cacheW FaceSwap.srcUpload FaceSwap.dstUpload =
      (.ok "/static/output/source_x.png" "/static/output/dest_x.png",
       FaceSwap.cacheW, FaceSwap.Effects.none) :=
  FaceSwap.cache_hit_skips_downstream_work.1 FaceSwap.envHit FaceSwap.cacheW
    FaceSwap.srcUpload FaceSwap.dstUpload
    "/static/output/source_x.png" "/static/output/dest_x.png" rfl (by decide) rfl

namespace FaceSwap

/-- C7 counterexample: in a run where the destination store fails after the
source store succeeded, the handler answers 500 and writes nothing to the
cache, yet the source output file has been written and remains addressable
under the output directory — refuting the claim that nothing partially
written is left addressable on a store failure. -/
theorem store_failure_leaves_source_file :
    (process_images envStoreFail [] ⟨some "a.png", [1]⟩ ⟨some "b.png", [2]⟩).1 =
      .serverError "disk full" ∧
    (process_images envStoreFail [] ⟨some "a.png", [1]⟩ ⟨some "b.png", [2]⟩).2.1 = [] ∧
    (process_images envStoreFail [] ⟨some "a.png", [1]⟩ ⟨some "b.png", [2]⟩).2.2.filesWritten =
      ["static/output/source_cafe.png"] ∧
    (process_images envStoreFail [] ⟨some "a.png", [1]⟩ ⟨some "b.png", [2]⟩).2.2.filesWritten ≠ [] := by
  refine ⟨?_, ?_, ?_, ?_⟩ <;> decide

/-- Witness for `store_failure_no_cache_write`: the same concrete run
discharges every hypothesis of the amended claim. -/
theorem store_failure_no_cache_write_witness :
    (process_images envStoreFail [] ⟨some "a.png", [1]⟩ ⟨some "b.png", [2]⟩).1.status = 500 ∧
    (process_images envStoreFail [] ⟨some "a.png", [1]⟩ ⟨some "b.png", [2]⟩).2.1 = [] :=
  store_failure_no_cache_write envStoreFail [] ⟨some "a.png", [1]⟩ ⟨some "b.png", [2]⟩
    [1] [2] rfl (by decide) rfl rfl rfl (by decide)

/-- Witness for `validation_error_responses`: a concrete request with an
empty source filename gets the exact 400 "No file selected" response, and a
concrete request with a disallowed extension gets the exact 400 invalid
format response. -/
theorem validation_error_responses_witness :
    (process_images envHit [] ⟨some "", [5]⟩ ⟨some "b.png", []⟩ =
      (.badRequest "No file selected", [], Effects.none)) ∧
    (process_images envHit [] ⟨some "a.txt", [5]⟩ ⟨some "b.png", []⟩ =
      (.badRequest "Invalid file format. Only PNG, JPG, JPEG allowed", [], Effects.none)) :=
  ⟨(validation_error_responses.1 envHit [] ⟨some "", [5]⟩ ⟨some "b.png", []⟩ rfl).1,
   (validation_error_responses.2 envHit [] ⟨some "a.txt", [5]⟩ ⟨some "b.png", []⟩ rfl (by decide)).1⟩

end FaceSwap
